import Mathlib

/-
  Verification of the node-setup REST API against its specification.

  The definitions below are a shallow embedding of the JavaScript sources:
    - src/src/middlewares/auth.js            (protect middleware)
    - src/src/services/userService.js        (loginUser, getAllUsers)
    - src/src/models/User.js                 (pre-save password hashing hook)
    - src/src/models/Product.js              (schema required fields)
    - src/src/controllers/productController.js  (the controller wired by productRoutes.js)
    - the alternate product controller bundled with the sources
      (the version that validates category and subcategory)
    - src/src/controllers/categoryController.js

  JavaScript data is modelled by `JsValue` with explicit truthiness; mongoose
  collections are lists of documents; fallible operations return `Except`;
  the bcrypt primitives are abstract function parameters (`bhash`, `compare`)
  since no claim depends on their internals.
-/

namespace NodeSetup

/-- JavaScript runtime values as they occur in request bodies and document
fields. `vNull` stands for JS `null`. -/
inductive JsValue where
  | vNum (n : Int)
  | vStr (s : String)
  | vBool (b : Bool)
  | vNull
deriving DecidableEq, Repr

/-- JavaScript truthiness of a value, as tested by `if (x)`:
`0`, the empty string, `false` and `null` are falsy. -/
def jsTruthy : JsValue → Bool
  | .vNum n => n != 0
  | .vStr s => s != ""
  | .vBool b => b
  | .vNull => false

/-- Truthiness of a possibly absent field: JS `undefined` is falsy. -/
def jsTruthyOpt : Option JsValue → Bool
  | none => false
  | some v => jsTruthy v

/-- An HTTP response as the controllers produce it: a status code and the
message carried in the JSON envelope. -/
structure Resp where
  status : Nat
  message : String
deriving DecidableEq, Repr

/-- A stored User document (src/src/models/User.js). The `password` field
holds the stored digest. -/
structure UserDoc where
  id : Nat
  name : String
  email : String
  password : String
  role : String
  isActive : Bool
  lastLogin : Option Nat
deriving DecidableEq, Repr

/-- User.findById: first document with the given id. -/
def findUserById (db : List UserDoc) (uid : Nat) : Option UserDoc :=
  db.find? (fun u => u.id == uid)

/-- User.findOne on email: first document with the given email. -/
def findUserByEmail (db : List UserDoc) (email : String) : Option UserDoc :=
  db.find? (fun u => u.email == email)

/-- Errors thrown by jwt.verify, as discriminated by the middleware
(error.name: JsonWebTokenError, TokenExpiredError, anything else). -/
inductive TokenErr where
  | jsonWebTokenError
  | tokenExpiredError
  | other
deriving DecidableEq, Repr

/-- Token extraction in `protect` (src/src/middlewares/auth.js): the `token`
variable is assigned `authorization.split(" ")[1]` only when the header is
present and starts with `Bearer`; otherwise it stays `undefined` (`none`). -/
def extractToken (auth : Option String) : Option String :=
  match auth with
  | none => none
  | some a => if a.startsWith "Bearer" then (a.splitOn " ")[1]? else none

/-- Outcome of a middleware: either the chain halts with a response, or it
continues with the authenticated user attached to the request. -/
inductive AuthOutcome where
  | halt (r : Resp)
  | proceed (u : UserDoc)
deriving DecidableEq, Repr

/-- The `protect` middleware (src/src/middlewares/auth.js). `verify` is the
jwt.verify primitive, returning the userId embedded in the token or the
error it throws. The JS guard `if (!token)` fires both when `token` is
`undefined` and when it is the empty string. -/
def protect (verify : String → Except TokenErr Nat) (db : List UserDoc)
    (auth : Option String) : AuthOutcome :=
  match extractToken auth with
  | none => .halt ⟨401, "Access denied. No token provided."⟩
  | some t =>
    if t = "" then .halt ⟨401, "Access denied. No token provided."⟩
    else
      match verify t with
      | .error .jsonWebTokenError => .halt ⟨401, "Invalid token"⟩
      | .error .tokenExpiredError => .halt ⟨401, "Token expired"⟩
      | .error .other => .halt ⟨500, "Server error during authentication"⟩
      | .ok uid =>
        match findUserById db uid with
        | none => .halt ⟨401, "Token is valid but user no longer exists"⟩
        | some u =>
          if u.isActive then .proceed u
          else .halt ⟨401, "User account is deactivated"⟩

/-- A protect-guarded route (e.g. `router.post("/", protect, handler)` in
src/src/routes/productRoutes.js): the controller runs only when the
middleware calls `next()`. -/
def runGuarded (verify : String → Except TokenErr Nat) (db : List UserDoc)
    (auth : Option String) (handler : UserDoc → Resp) : Resp :=
  match protect verify db auth with
  | .halt r => r
  | .proceed u => handler u

/-- The pre-save hook of the User schema (src/src/models/User.js): the stored
password is replaced by its salted hash exactly when the password path was
modified on this save (`this.isModified("password")`); otherwise the hook
returns immediately and the document is untouched. `bhash` is the
bcrypt.hash primitive (salted, so passed in abstractly). -/
def preSave (bhash : String → String) (u : UserDoc) (passwordModified : Bool) : UserDoc :=
  if passwordModified then { u with password := bhash u.password } else u

/-- Persist a user document: replace the stored document with the same id,
after the pre-save hook has run. -/
def saveUser (bhash : String → String) (db : List UserDoc) (u : UserDoc)
    (passwordModified : Bool) : List UserDoc :=
  let u' := preSave bhash u passwordModified
  db.map (fun q => if q.id == u'.id then u' else q)

/-- The JWT issued by generateToken (src/src/utils/jwt.js): its payload
carries the userId (issuer, audience and expiry are fixed configuration). -/
structure Token where
  userId : Nat
deriving DecidableEq, Repr

/-- generateToken (src/src/utils/jwt.js): sign a token embedding the id. -/
def generateToken (userId : Nat) : Token := ⟨userId⟩

/-- toSafeObject (src/src/models/User.js): the user object with the password
field deleted. -/
structure SafeUser where
  id : Nat
  name : String
  email : String
  role : String
  isActive : Bool
  lastLogin : Option Nat
deriving DecidableEq, Repr

/-- Drop the password from a user document. -/
def toSafeObject (u : UserDoc) : SafeUser :=
  ⟨u.id, u.name, u.email, u.role, u.isActive, u.lastLogin⟩

/-- loginUser (src/src/services/userService.js, lines 44-76). `compare` is
bcrypt.compare applied to the candidate password and the stored digest.
The service throws (`Except.error`) on failure; on success it updates
lastLogin, saves (password unmodified, so the pre-save hook does not
re-hash), and returns the safe user with a fresh token. The returned list
is the user collection after the save. -/
def loginUser (compare : String → String → Bool) (bhash : String → String)
    (db : List UserDoc) (email password : String) (now : Nat) :
    Except String (SafeUser × Token) × List UserDoc :=
  match findUserByEmail db email with
  | none => (.error "Invalid email or password", db)
  | some user =>
    if !user.isActive then (.error "Account is deactivated", db)
    else if !(compare password user.password) then
      (.error "Invalid email or password", db)
    else
      let user' : UserDoc := { user with lastLogin := some now }
      (.ok (toSafeObject user', generateToken user'.id),
       saveUser bhash db user' false)

/-- Math.ceil(a / b) for natural a and positive b, as computed over JS
numbers by getAllUsers; proved below to equal the rational ceiling. -/
def jsMathCeilDiv (a b : Nat) : Nat := (a + b - 1) / b

/-- The pagination summary object built by getAllUsers
(src/src/services/userService.js, lines 147-158). -/
structure Pagination where
  currentPage : Nat
  totalPages : Nat
  totalUsers : Nat
  hasNext : Bool
  hasPrev : Bool
deriving DecidableEq, Repr

/-- The search filter of getAllUsers: with an empty search string every
document matches; otherwise name or email must match the search term
case-insensitively (regex with option i, modelled as a case-insensitive
substring test). -/
def matchesSearch (search : String) (u : UserDoc) : Bool :=
  if search = "" then true
  else
    decide (search.toLower.toList <:+: u.name.toLower.toList)
    || decide (search.toLower.toList <:+: u.email.toLower.toList)

/-- Result of getAllUsers: the requested page of users and the pagination
summary. -/
structure UserListing where
  users : List SafeUser
  pagination : Pagination
deriving DecidableEq, Repr

/-- getAllUsers (src/src/services/userService.js, lines 134-161): filter by
search, skip `(page-1)*limit`, take `limit` (select("-password")), count the
matching documents, and build the pagination summary with
`totalPages = Math.ceil(total/limit)`, `hasNext = page*limit < total`,
`hasPrev = page > 1`. The sort step permutes the page but no claim concerns
order, so the stored order is used. -/
def getAllUsers (db : List UserDoc) (search : String) (page limit : Nat) :
    UserListing :=
  let matching := db.filter (matchesSearch search)
  let total := matching.length
  { users := ((matching.drop ((page - 1) * limit)).take limit).map toSafeObject
    pagination :=
      { currentPage := page
        totalPages := jsMathCeilDiv total limit
        totalUsers := total
        hasNext := decide (page * limit < total)
        hasPrev := decide (1 < page) } }

/-- A stored Product document (src/src/models/Product.js). Field values are
JS values; `user` is the owning-user id; timestamps from `timestamps: true`. -/
structure ProductDoc where
  id : Nat
  user : Nat
  name : JsValue
  price : JsValue
  description : JsValue
  imageUrl : JsValue
  category : JsValue
  subcategory : JsValue
  quantity : JsValue
  createdAt : Nat
  updatedAt : Nat
deriving DecidableEq, Repr

/-- Product.findById: first document with the given id. -/
def findProductById (db : List ProductDoc) (pid : Nat) : Option ProductDoc :=
  db.find? (fun p => p.id == pid)

/-- product.save() under `timestamps: true`: the stored document with this
id is replaced and its updatedAt is set to the save time. -/
def saveProduct (db : List ProductDoc) (p : ProductDoc) (now : Nat) :
    List ProductDoc :=
  db.map (fun q => if q.id == p.id then { p with updatedAt := now } else q)

/-- product.deleteOne(): remove the document from the collection. -/
def deleteProductDoc (db : List ProductDoc) (pid : Nat) : List ProductDoc :=
  db.filter (fun q => q.id != pid)

/-- The update request body, restricted to the fields the wired updateProduct
allow-list reads (name, price, description, imageUrl); `none` is an absent
field. -/
structure UpdateBody where
  name : Option JsValue
  price : Option JsValue
  description : Option JsValue
  imageUrl : Option JsValue
deriving DecidableEq, Repr

/-- One step of the allow-list copy loop
`if (req.body[field]) product[field] = req.body[field]`: the body value is
assigned only when present and truthy. -/
def assignIfTruthy (cur : JsValue) (v : Option JsValue) : JsValue :=
  match v with
  | some w => if jsTruthy w then w else cur
  | none => cur

/-- The fieldsToUpdate loop of the wired updateProduct
(src/src/controllers/productController.js): copy each of name, price,
description, imageUrl from the body when truthy. -/
def applyProductUpdates (body : UpdateBody) (p : ProductDoc) : ProductDoc :=
  { p with
    name := assignIfTruthy p.name body.name
    price := assignIfTruthy p.price body.price
    description := assignIfTruthy p.description body.description
    imageUrl := assignIfTruthy p.imageUrl body.imageUrl }

/-- updateProduct (src/src/controllers/productController.js, the controller
wired by productRoutes.js): 404 when the product does not exist; 403
"Not authorized" when the caller is neither owner nor admin; otherwise apply
the allow-list copy and save. Returns the response and the collection
afterwards. -/
def updateProduct (db : List ProductDoc) (caller : UserDoc) (pid : Nat)
    (body : UpdateBody) (now : Nat) : Resp × List ProductDoc :=
  match findProductById db pid with
  | none => (⟨404, "Product not found"⟩, db)
  | some p =>
    if p.user != caller.id && caller.role != "admin" then
      (⟨403, "Not authorized"⟩, db)
    else
      (⟨200, "Product updated"⟩, saveProduct db (applyProductUpdates body p) now)

/-- deleteProduct (src/src/controllers/productController.js): 404 when the
product does not exist; 403 "Not authorized" when the caller is neither
owner nor admin; otherwise deleteOne. -/
def deleteProduct (db : List ProductDoc) (caller : UserDoc) (pid : Nat) :
    Resp × List ProductDoc :=
  match findProductById db pid with
  | none => (⟨404, "Product not found"⟩, db)
  | some p =>
    if p.user != caller.id && caller.role != "admin" then
      (⟨403, "Not authorized"⟩, db)
    else
      (⟨200, "Product deleted successfully"⟩, deleteProductDoc db p.id)

/-- Errors a controller can throw at runtime: a JS ReferenceError on an
unbound identifier, or a mongoose schema validation error naming the
failing path. -/
inductive JsError where
  | referenceError (ident : String)
  | validationError (path : String)
deriving DecidableEq, Repr

/-- The mongoose `required` validator on a path: fails on an absent value,
on `null`, and (for string paths) on the empty string. -/
def requiredOk : Option JsValue → Bool
  | none => false
  | some .vNull => false
  | some (.vStr s) => s != ""
  | some _ => true

/-- The fields handed to Product.create. -/
structure NewProduct where
  name : Option JsValue
  price : Option JsValue
  description : Option JsValue
  imageUrl : Option JsValue
  category : Option JsValue
  subcategory : Option JsValue
  user : Nat
deriving DecidableEq, Repr

/-- Product.create under the schema of src/src/models/Product.js: the paths
name, price, imageUrl, category and subcategory are `required`, so creation
throws a ValidationError and writes nothing when one of them is missing;
otherwise the document is appended to the collection. -/
def productCreate (db : List ProductDoc) (nextId now : Nat) (np : NewProduct) :
    Except JsError (ProductDoc × List ProductDoc) :=
  if !requiredOk np.name then .error (.validationError "name")
  else if !requiredOk np.price then .error (.validationError "price")
  else if !requiredOk np.imageUrl then .error (.validationError "imageUrl")
  else if !requiredOk np.category then .error (.validationError "category")
  else if !requiredOk np.subcategory then .error (.validationError "subcategory")
  else
    let p : ProductDoc :=
      { id := nextId, user := np.user
        name := np.name.getD .vNull
        price := np.price.getD .vNull
        description := np.description.getD .vNull
        imageUrl := np.imageUrl.getD .vNull
        category := np.category.getD .vNull
        subcategory := np.subcategory.getD .vNull
        quantity := .vNull
        createdAt := now, updatedAt := now }
    .ok (p, db ++ [p])

/-- The creation request body (fields a client may send). -/
structure CreateBody where
  name : Option JsValue
  price : Option JsValue
  description : Option JsValue
  imageUrl : Option JsValue
  category : Option JsValue
  subcategory : Option JsValue
deriving DecidableEq, Repr

/-- createProduct as wired by src/src/routes/productRoutes.js
(src/src/controllers/productController.js, lines 4-27). Two facts are
embedded exactly as written in the source: (1) the missing-fields branch is
`return (res.status(400), json({...}))` where `json` is an unbound
identifier, so evaluating that branch throws
`ReferenceError: json is not defined` instead of sending the 400 body;
(2) the handler destructures only name, price, description, imageUrl from
the body and never reads the Category collection, and it passes no category
or subcategory to Product.create. The pair holds the thrown error or the
response, and the product collection afterwards. -/
def createProduct_wired (db : List ProductDoc) (nextId now userId : Nat)
    (body : CreateBody) : Except JsError Resp × List ProductDoc :=
  if !jsTruthyOpt body.name || !jsTruthyOpt body.price || !jsTruthyOpt body.imageUrl then
    (.error (.referenceError "json"), db)
  else
    match productCreate db nextId now
        { name := body.name, price := body.price
          description := body.description, imageUrl := body.imageUrl
          category := none, subcategory := none, user := userId } with
    | .error e => (.error e, db)
    | .ok (_, db') => (.ok ⟨201, "Product created successfully"⟩, db')

/-- Modelled from the spec: src/src/models/Category.js is not among the
sources (only its callers are); per the spec a Category has a name and a
list of subcategory name strings. -/
structure CategoryDoc where
  name : String
  subcategories : List String
deriving DecidableEq, Repr

/-- Category.findOne({ name: category }) for the body value of `category`:
a match requires the body value to be the string equal to the stored name. -/
def findCategoryByName (cats : List CategoryDoc) (v : Option JsValue) :
    Option CategoryDoc :=
  cats.find? (fun c => v == some (.vStr c.name))

/-- foundCategory.subcategories.includes(subcategory): JS includes compares
with strict equality, so a non-string body value never matches. -/
def subcatMember (c : CategoryDoc) : Option JsValue → Bool
  | some (.vStr s) => c.subcategories.contains s
  | _ => false

/-- The alternate createProduct bundled with the sources (the controller
version that validates category and subcategory, not the one wired by
productRoutes.js): reject with 400 when any of the six fields is falsy;
400 "Category not found" when no Category has the given name;
400 "Invalid subcategory for this category" when the subcategory is not in
the list of the found category; otherwise create with all fields. -/
def createProduct_alt (cats : List CategoryDoc) (db : List ProductDoc)
    (nextId now userId : Nat) (body : CreateBody) :
    Except JsError Resp × List ProductDoc :=
  if !jsTruthyOpt body.name || !jsTruthyOpt body.price
      || !jsTruthyOpt body.imageUrl || !jsTruthyOpt body.description
      || !jsTruthyOpt body.category || !jsTruthyOpt body.subcategory then
    (.ok ⟨400, "All fields are required: name, price, imageUrl, description, category, subcategory"⟩, db)
  else
    match findCategoryByName cats body.category with
    | none => (.ok ⟨400, "Category not found"⟩, db)
    | some c =>
      if !subcatMember c body.subcategory then
        (.ok ⟨400, "Invalid subcategory for this category"⟩, db)
      else
        match productCreate db nextId now
            { name := body.name, price := body.price
              description := body.description, imageUrl := body.imageUrl
              category := body.category, subcategory := body.subcategory
              user := userId } with
        | .error e => (.error e, db)
        | .ok (_, db') => (.ok ⟨201, "Product created successfully"⟩, db')

/-- C2: for every request to a protect-guarded route whose Authorization
header is absent or does not carry a bearer token (the extracted token is
missing or empty), the middleware halts the chain with 401 and the message
"Access denied. No token provided.", and the controller is never invoked:
the guarded route returns that response for every handler. -/
theorem protect_no_token_halts (verify : String → Except TokenErr Nat)
    (db : List UserDoc) (auth : Option String)
    (h : extractToken auth = none ∨ extractToken auth = some "") :
    protect verify db auth = .halt ⟨401, "Access denied. No token provided."⟩
    ∧ ∀ handler : UserDoc → Resp,
        runGuarded verify db auth handler
          = ⟨401, "Access denied. No token provided."⟩ := by
  have hp : protect verify db auth
      = .halt ⟨401, "Access denied. No token provided."⟩ := by
    rcases h with h | h <;> simp [protect, h]
  exact ⟨hp, fun handler => by simp [runGuarded, hp]⟩

/-- Witness for C2: a request with no Authorization header is rejected with
the 401 response even though the handler would answer 200. -/
theorem protect_no_token_halts_witness :
    runGuarded (fun _ => .error .other) [] none (fun _ => ⟨200, "ok"⟩)
      = ⟨401, "Access denied. No token provided."⟩ :=
  (protect_no_token_halts (fun _ => .error .other) [] none (Or.inl rfl)).2 _

/-- C3: a failed login with an existing active email but wrong password and
a failed login with a non-existent email both produce the identical generic
message "Invalid email or password", so the caller cannot distinguish the
two conditions; and every login with correct credentials on an active
account returns a token. -/
theorem login_uniform_failure_and_token (compare : String → String → Bool)
    (bhash : String → String) (db : List UserDoc)
    (e1 p1 e2 p2 : String) (now : Nat) (u : UserDoc)
    (h1 : findUserByEmail db e1 = some u) (hact : u.isActive = true)
    (hwrong : compare p1 u.password = false)
    (h2 : findUserByEmail db e2 = none) :
    (loginUser compare bhash db e1 p1 now).1 = .error "Invalid email or password"
    ∧ (loginUser compare bhash db e2 p2 now).1 = .error "Invalid email or password"
    ∧ (loginUser compare bhash db e1 p1 now).1 = (loginUser compare bhash db e2 p2 now).1
    ∧ ∀ (e3 p3 : String) (v : UserDoc), findUserByEmail db e3 = some v →
        v.isActive = true → compare p3 v.password = true →
        (loginUser compare bhash db e3 p3 now).1
          = .ok (toSafeObject { v with lastLogin := some now }, generateToken v.id) := by
  have hw : (loginUser compare bhash db e1 p1 now).1
      = .error "Invalid email or password" := by
    simp [loginUser, h1, hact, hwrong]
  have hn : (loginUser compare bhash db e2 p2 now).1
      = .error "Invalid email or password" := by
    simp [loginUser, h2]
  refine ⟨hw, hn, hw.trans hn.symm, ?_⟩
  intro e3 p3 v h3 hact3 hok
  simp [loginUser, h3, hact3, hok]

/-- Witness for C3 at a concrete database: the wrong-password response and
the unknown-email response are the same string. -/
theorem login_uniform_failure_and_token_witness :
    (loginUser (fun c _ => c == "right") (fun s => s)
        [⟨1, "a", "a@x.co", "digest", "user", true, none⟩] "a@x.co" "wrong" 5).1
      = .error "Invalid email or password"
    ∧ (loginUser (fun c _ => c == "right") (fun s => s)
        [⟨1, "a", "a@x.co", "digest", "user", true, none⟩] "b@x.co" "wrong" 5).1
      = .error "Invalid email or password" := by
  have h := login_uniform_failure_and_token (fun c _ => c == "right") (fun s => s)
    [⟨1, "a", "a@x.co", "digest", "user", true, none⟩]
    "a@x.co" "wrong" "b@x.co" "wrong" 5
    ⟨1, "a", "a@x.co", "digest", "user", true, none⟩
    (by rfl) (by rfl) (by rfl) (by rfl)
  exact ⟨h.1, h.2.1⟩

/-- C10: for every login attempt against a deactivated account the response
is "Account is deactivated" regardless of the supplied password or of the
password-comparison oracle (the isActive check precedes password
verification), and that response differs from the response for a
non-existent email. -/
theorem login_deactivated_precedes_password
    (bhash : String → String) (db : List UserDoc) (email : String)
    (now : Nat) (u : UserDoc)
    (h : findUserByEmail db email = some u) (hin : u.isActive = false) :
    (∀ (compare : String → String → Bool) (password : String),
        (loginUser compare bhash db email password now).1
          = .error "Account is deactivated")
    ∧ ∀ (compare : String → String → Bool) (password e2 p2 : String),
        findUserByEmail db e2 = none →
        (loginUser compare bhash db email password now).1
          ≠ (loginUser compare bhash db e2 p2 now).1 := by
  have hd : ∀ (compare : String → String → Bool) (password : String),
      (loginUser compare bhash db email password now).1
        = .error "Account is deactivated" := by
    intro compare password
    simp [loginUser, h, hin]
  refine ⟨hd, ?_⟩
  intro compare password e2 p2 h2
  rw [hd compare password]
  simp [loginUser, h2]

/-- Witness for C10: a deactivated account with a comparison oracle that
accepts every password still gets the deactivation message, and the
unknown-email attempt gets a different message. -/
theorem login_deactivated_precedes_password_witness :
    (loginUser (fun _ _ => true) (fun s => s)
        [⟨1, "a", "a@x.co", "digest", "user", false, none⟩] "a@x.co" "pw" 5).1
      = .error "Account is deactivated"
    ∧ (loginUser (fun _ _ => true) (fun s => s)
        [⟨1, "a", "a@x.co", "digest", "user", false, none⟩] "a@x.co" "pw" 5).1
      ≠ (loginUser (fun _ _ => true) (fun s => s)
        [⟨1, "a", "a@x.co", "digest", "user", false, none⟩] "b@x.co" "pw" 5).1 := by
  have h := login_deactivated_precedes_password (fun s => s)
    [⟨1, "a", "a@x.co", "digest", "user", false, none⟩] "a@x.co" 5
    ⟨1, "a", "a@x.co", "digest", "user", false, none⟩ (by rfl) (by rfl)
  exact ⟨h.1 (fun _ _ => true) "pw", h.2 (fun _ _ => true) "pw" "b@x.co" "pw" (by rfl)⟩

/-- C5: the pre-save hook replaces the stored password with its salted hash
exactly when the password path was modified on that save (creation included,
since new documents have the path modified); a save that modifies only other
fields, such as lastLogin on login or name and email on profile update,
leaves the whole document, and in particular the stored digest, identical. -/
theorem pre_save_hashes_iff_password_modified
    (bhash : String → String) (u : UserDoc) :
    (preSave bhash u true).password = bhash u.password
    ∧ preSave bhash u false = u
    ∧ ∀ (modified : Bool), (preSave bhash u modified).password
        = (if modified then bhash u.password else u.password)
    ∧ ∀ (now : Nat),
        (preSave bhash { u with lastLogin := some now } false).password
          = u.password := by
  refine ⟨rfl, rfl, ?_⟩
  intro modified
  cases modified <;> exact ⟨rfl, fun _ => rfl⟩

/-- C8: in the create-product handler wired by the product routes, every
authenticated request whose body lacks a truthy name, price or imageUrl hits
the missing-fields branch `res.status(400), json(...)`, whose bare `json`
identifier is unbound, so the handler throws a ReferenceError instead of
returning the intended 400 validation response, and nothing is written. -/
theorem wired_create_missing_fields_reference_error
    (db : List ProductDoc) (nextId now userId : Nat) (body : CreateBody)
    (h : jsTruthyOpt body.name = false ∨ jsTruthyOpt body.price = false
        ∨ jsTruthyOpt body.imageUrl = false) :
    createProduct_wired db nextId now userId body
      = (.error (.referenceError "json"), db) := by
  rcases h with h | h | h <;> simp [createProduct_wired, h]

/-- Witness for C8: a request with an empty body throws the ReferenceError. -/
theorem wired_create_missing_fields_reference_error_witness :
    createProduct_wired [] 1 0 7 ⟨none, none, none, none, none, none⟩
      = (.error (.referenceError "json"), []) :=
  wired_create_missing_fields_reference_error [] 1 0 7
    ⟨none, none, none, none, none, none⟩ (Or.inl rfl)

/-- C4: for every product update or delete request where the caller id
differs from the owning-user id of the product and the caller role is not
admin, the controller responds 403 "Not authorized" and the product
collection is returned unchanged: no field is assigned and no save or
delete is performed. -/
theorem product_update_delete_forbidden_unchanged
    (db : List ProductDoc) (caller : UserDoc) (pid : Nat) (body : UpdateBody)
    (now : Nat) (p : ProductDoc)
    (hfind : findProductById db pid = some p)
    (howner : p.user ≠ caller.id) (hrole : caller.role ≠ "admin") :
    updateProduct db caller pid body now = (⟨403, "Not authorized"⟩, db)
    ∧ deleteProduct db caller pid = (⟨403, "Not authorized"⟩, db) := by
  have hc : (p.user != caller.id && caller.role != "admin") = true := by
    simp [bne_iff_ne, howner, hrole]
  constructor <;> simp [updateProduct, deleteProduct, hfind, hc]

/-- Witness for C4: a non-owner, non-admin caller gets 403 from both update
and delete and the stored product is untouched. -/
theorem product_update_delete_forbidden_unchanged_witness :
    updateProduct [⟨5, 1, .vStr "n", .vNum 2, .vNull, .vStr "u", .vStr "c",
        .vStr "s", .vNull, 0, 0⟩]
      ⟨2, "eve", "e@x.co", "d", "user", true, none⟩ 5 ⟨none, none, none, none⟩ 9
      = (⟨403, "Not authorized"⟩,
        [⟨5, 1, .vStr "n", .vNum 2, .vNull, .vStr "u", .vStr "c",
          .vStr "s", .vNull, 0, 0⟩])
    ∧ deleteProduct [⟨5, 1, .vStr "n", .vNum 2, .vNull, .vStr "u", .vStr "c",
        .vStr "s", .vNull, 0, 0⟩]
      ⟨2, "eve", "e@x.co", "d", "user", true, none⟩ 5
      = (⟨403, "Not authorized"⟩,
        [⟨5, 1, .vStr "n", .vNum 2, .vNull, .vStr "u", .vStr "c",
          .vStr "s", .vNull, 0, 0⟩]) :=
  product_update_delete_forbidden_unchanged
    [⟨5, 1, .vStr "n", .vNum 2, .vNull, .vStr "u", .vStr "c", .vStr "s", .vNull, 0, 0⟩]
    ⟨2, "eve", "e@x.co", "d", "user", true, none⟩ 5 ⟨none, none, none, none⟩ 9
    ⟨5, 1, .vStr "n", .vNum 2, .vNull, .vStr "u", .vStr "c", .vStr "s", .vNull, 0, 0⟩
    (by rfl) (by decide) (by decide)

/-- C9: in product update, a supplied allow-listed field whose value is
falsy (0, the empty string, false or null) is treated as absent by the
`if (req.body[field])` guard and the stored field is left unchanged. -/
theorem update_falsy_field_ignored (p : ProductDoc) (body : UpdateBody)
    (v : JsValue) (hv : jsTruthy v = false) :
    (body.name = some v → (applyProductUpdates body p).name = p.name)
    ∧ (body.price = some v → (applyProductUpdates body p).price = p.price)
    ∧ (body.description = some v →
        (applyProductUpdates body p).description = p.description)
    ∧ (body.imageUrl = some v →
        (applyProductUpdates body p).imageUrl = p.imageUrl) := by
  refine ⟨?_, ?_, ?_, ?_⟩ <;>
    (intro h; simp [applyProductUpdates, assignIfTruthy, h, hv])

/-- Witness for C9: a request setting price to 0 leaves the stored price
unchanged, and a request setting description to the empty string leaves the
stored description unchanged. -/
theorem update_falsy_field_ignored_witness :
    (applyProductUpdates ⟨none, some (.vNum 0), none, none⟩
        ⟨5, 1, .vStr "n", .vNum 2, .vStr "d", .vStr "u", .vStr "c",
         .vStr "s", .vNull, 0, 0⟩).price = .vNum 2
    ∧ (applyProductUpdates ⟨none, none, some (.vStr ""), none⟩
        ⟨5, 1, .vStr "n", .vNum 2, .vStr "d", .vStr "u", .vStr "c",
         .vStr "s", .vNull, 0, 0⟩).description = .vStr "d" :=
  ⟨(update_falsy_field_ignored
      ⟨5, 1, .vStr "n", .vNum 2, .vStr "d", .vStr "u", .vStr "c", .vStr "s", .vNull, 0, 0⟩
      ⟨none, some (.vNum 0), none, none⟩ (.vNum 0) (by decide)).2.1 rfl,
   (update_falsy_field_ignored
      ⟨5, 1, .vStr "n", .vNum 2, .vStr "d", .vStr "u", .vStr "c", .vStr "s", .vNull, 0, 0⟩
      ⟨none, none, some (.vStr ""), none⟩ (.vStr "") (by decide)).2.2.1 rfl⟩

/-- Saving a product that is present in the collection makes it retrievable
with only updatedAt changed. -/
theorem findProductById_saveProduct (db : List ProductDoc) (p : ProductDoc)
    (now : Nat) (hmem : ∃ q ∈ db, q.id = p.id) :
    findProductById (saveProduct db p now) p.id
      = some { p with updatedAt := now } := by
  induction db with
  | nil => simp at hmem
  | cons a tl ih =>
    by_cases hid : a.id = p.id
    · simp [findProductById, saveProduct, List.find?, hid]
    · have hmem' : ∃ q ∈ tl, q.id = p.id := by
        obtain ⟨q, hq, hqid⟩ := hmem
        rcases List.mem_cons.mp hq with hq | hq
        · exact absurd hqid (hq ▸ hid)
        · exact ⟨q, hq, hqid⟩
      have ihr := ih hmem'
      have hne : (a.id == p.id) = false := by simp [hid]
      simp only [findProductById, saveProduct, List.map_cons] at ihr ⊢
      rw [show (if (a.id == p.id) = true then { p with updatedAt := now } else a)
            = a by rw [hne]; simp]
      rw [List.find?_cons, hne]
      exact ihr

/-- C7: for every existing product owned by the caller, an update request
whose body contains none of the allow-listed fields (name, price,
description, imageUrl) succeeds and leaves every stored field of the
product unchanged except updatedAt, which is set to the save time. -/
theorem update_empty_body_frame
    (db : List ProductDoc) (caller : UserDoc) (pid : Nat) (body : UpdateBody)
    (now : Nat) (p : ProductDoc)
    (hfind : findProductById db pid = some p)
    (hown : p.user = caller.id)
    (hname : body.name = none) (hprice : body.price = none)
    (hdesc : body.description = none) (himg : body.imageUrl = none) :
    (updateProduct db caller pid body now).1 = ⟨200, "Product updated"⟩
    ∧ findProductById (updateProduct db caller pid body now).2 pid
        = some { p with updatedAt := now } := by
  have hpid : p.id = pid := by
    have := List.find?_some hfind
    simpa using this
  have hmem : p ∈ db := List.mem_of_find?_eq_some hfind
  have happ : applyProductUpdates body p = p := by
    simp [applyProductUpdates, assignIfTruthy, hname, hprice, hdesc, himg]
  have hc : (p.user != caller.id && caller.role != "admin") = false := by
    simp [hown]
  have hupd : updateProduct db caller pid body now
      = (⟨200, "Product updated"⟩, saveProduct db p now) := by
    simp [updateProduct, hfind, hc, happ]
  refine ⟨by rw [hupd], ?_⟩
  rw [hupd, ← hpid]
  exact findProductById_saveProduct db p now ⟨p, hmem, rfl⟩

/-- Witness for C7: an owner update with an empty body leaves every field
of the stored product unchanged and only bumps updatedAt. -/
theorem update_empty_body_frame_witness :
    (updateProduct [⟨5, 2, .vStr "n", .vNum 2, .vStr "d", .vStr "u", .vStr "c",
        .vStr "s", .vNull, 0, 0⟩]
      ⟨2, "eve", "e@x.co", "d", "user", true, none⟩ 5 ⟨none, none, none, none⟩ 9).1
      = ⟨200, "Product updated"⟩
    ∧ findProductById (updateProduct [⟨5, 2, .vStr "n", .vNum 2, .vStr "d",
        .vStr "u", .vStr "c", .vStr "s", .vNull, 0, 0⟩]
      ⟨2, "eve", "e@x.co", "d", "user", true, none⟩ 5 ⟨none, none, none, none⟩ 9).2 5
      = some ⟨5, 2, .vStr "n", .vNum 2, .vStr "d", .vStr "u", .vStr "c",
        .vStr "s", .vNull, 0, 9⟩ :=
  update_empty_body_frame
    [⟨5, 2, .vStr "n", .vNum 2, .vStr "d", .vStr "u", .vStr "c", .vStr "s", .vNull, 0, 0⟩]
    ⟨2, "eve", "e@x.co", "d", "user", true, none⟩ 5 ⟨none, none, none, none⟩ 9
    ⟨5, 2, .vStr "n", .vNum 2, .vStr "d", .vStr "u", .vStr "c", .vStr "s", .vNull, 0, 0⟩
    (by rfl) (by rfl) rfl rfl rfl rfl

/-- The natural number computed by Math.ceil(a / b) is the ceiling of the
exact rational quotient. -/
theorem jsMathCeilDiv_eq_ceil (a b : Nat) (hb : 0 < b) :
    jsMathCeilDiv a b = ⌈(a : ℚ) / (b : ℚ)⌉₊ := by
  have hbQ : (0 : ℚ) < (b : ℚ) := by exact_mod_cast hb
  have h1 : a ≤ jsMathCeilDiv a b * b := by
    by_contra hlt
    push_neg at hlt
    have step : (jsMathCeilDiv a b + 1) * b ≤ a + b - 1 := by
      have hs : (jsMathCeilDiv a b + 1) * b = jsMathCeilDiv a b * b + b := by ring
      omega
    have hle : jsMathCeilDiv a b + 1 ≤ (a + b - 1) / b :=
      (Nat.le_div_iff_mul_le hb).mpr step
    simp only [jsMathCeilDiv] at hle
    omega
  have h2 : ∀ q0, jsMathCeilDiv a b = q0 + 1 → q0 * b < a := by
    intro q0 hq0
    by_contra hge
    push_neg at hge
    have hlt2 : a + b - 1 < (q0 + 1) * b := by
      have hs : (q0 + 1) * b = q0 * b + b := by ring
      omega
    have := (Nat.div_lt_iff_lt_mul hb).mpr hlt2
    simp only [jsMathCeilDiv] at hq0
    omega
  refine le_antisymm ?_ ?_
  · rcases hq : jsMathCeilDiv a b with _ | q0
    · exact Nat.zero_le _
    · have hlt : (q0 : ℚ) < (a : ℚ) / (b : ℚ) := by
        rw [lt_div_iff₀ hbQ]
        exact_mod_cast h2 q0 hq
      have := Nat.lt_ceil.mpr hlt
      omega
  · rw [Nat.ceil_le, div_le_iff₀ hbQ]
    exact_mod_cast h1

/-- C6: for every user listing over a collection having N documents that
match the search filter, page p ≥ 1 and limit L > 0, the pagination summary
returned by getAllUsers satisfies totalUsers = N, totalPages = ⌈N / L⌉,
hasNext = (p * L < N) and hasPrev = (p > 1). -/
theorem getAllUsers_pagination_spec (db : List UserDoc) (search : String)
    (page limit : Nat) (hp : 1 ≤ page) (hl : 0 < limit) :
    (getAllUsers db search page limit).pagination.totalUsers
        = (db.filter (matchesSearch search)).length
    ∧ (getAllUsers db search page limit).pagination.totalPages
        = ⌈((db.filter (matchesSearch search)).length : ℚ) / (limit : ℚ)⌉₊
    ∧ ((getAllUsers db search page limit).pagination.hasNext = true
        ↔ page * limit < (db.filter (matchesSearch search)).length)
    ∧ ((getAllUsers db search page limit).pagination.hasPrev = true
        ↔ 1 < page) := by
  refine ⟨rfl, ?_, by simp [getAllUsers], by simp [getAllUsers]⟩
  simpa [getAllUsers] using
    jsMathCeilDiv_eq_ceil (db.filter (matchesSearch search)).length limit hl

/-- Witness for C6: three matching users with page 2 and limit 1 give
totalPages = 3 = ⌈3/1⌉, totalUsers = 3, hasNext (2*1 < 3) and hasPrev. -/
theorem getAllUsers_pagination_spec_witness :
    (getAllUsers [⟨1, "a", "a@x.co", "d", "user", true, none⟩,
        ⟨2, "b", "b@x.co", "d", "user", true, none⟩,
        ⟨3, "c", "c@x.co", "d", "user", true, none⟩] "" 2 1).pagination.totalUsers
        = (List.filter (matchesSearch "")
            [⟨1, "a", "a@x.co", "d", "user", true, none⟩,
             ⟨2, "b", "b@x.co", "d", "user", true, none⟩,
             ⟨3, "c", "c@x.co", "d", "user", true, none⟩]).length
    ∧ (getAllUsers [⟨1, "a", "a@x.co", "d", "user", true, none⟩,
        ⟨2, "b", "b@x.co", "d", "user", true, none⟩,
        ⟨3, "c", "c@x.co", "d", "user", true, none⟩] "" 2 1).pagination.totalPages
        = ⌈((List.filter (matchesSearch "")
            [⟨1, "a", "a@x.co", "d", "user", true, none⟩,
             ⟨2, "b", "b@x.co", "d", "user", true, none⟩,
             ⟨3, "c", "c@x.co", "d", "user", true, none⟩]).length : ℚ) / ((1 : Nat) : ℚ)⌉₊
    ∧ ((getAllUsers [⟨1, "a", "a@x.co", "d", "user", true, none⟩,
        ⟨2, "b", "b@x.co", "d", "user", true, none⟩,
        ⟨3, "c", "c@x.co", "d", "user", true, none⟩] "" 2 1).pagination.hasNext = true
        ↔ 2 * 1 < (List.filter (matchesSearch "")
            [⟨1, "a", "a@x.co", "d", "user", true, none⟩,
             ⟨2, "b", "b@x.co", "d", "user", true, none⟩,
             ⟨3, "c", "c@x.co", "d", "user", true, none⟩]).length)
    ∧ ((getAllUsers [⟨1, "a", "a@x.co", "d", "user", true, none⟩,
        ⟨2, "b", "b@x.co", "d", "user", true, none⟩,
        ⟨3, "c", "c@x.co", "d", "user", true, none⟩] "" 2 1).pagination.hasPrev = true
        ↔ 1 < 2) :=
  getAllUsers_pagination_spec
    [⟨1, "a", "a@x.co", "d", "user", true, none⟩,
     ⟨2, "b", "b@x.co", "d", "user", true, none⟩,
     ⟨3, "c", "c@x.co", "d", "user", true, none⟩] "" 2 1 (by decide) (by decide)

/-- C1 (divergence record): the claim says a create request whose
subcategory is not in the subcategory list of the named Category fails with
the InvalidArgument rejection of the category rule and writes nothing, and
that this is decided by the handler the product route table wires in. The
wired handler (createProduct in productController.js) takes no category
collection at all: on the request
(name iPhone, price 999, description d, imageUrl u, category electronics,
subcategory laptops) against a store holding Category electronics with
subcategories [phones], it forwards no category or subcategory to
Product.create and therefore throws the schema required-path validation
error - and it throws the very same error when the subcategory is the valid
phones, where the spec requires a successful 201 creation. The category
rule response ("Invalid subcategory for this category", 400, no write) is
produced only by the alternate, unwired controller version. -/
theorem wired_create_never_checks_category :
    createProduct_wired [] 1 0 7
        ⟨some (.vStr "iPhone"), some (.vNum 999), some (.vStr "d"),
         some (.vStr "u"), some (.vStr "electronics"), some (.vStr "laptops")⟩
      = (.error (.validationError "category"), [])
    ∧ createProduct_wired [] 1 0 7
        ⟨some (.vStr "iPhone"), some (.vNum 999), some (.vStr "d"),
         some (.vStr "u"), some (.vStr "electronics"), some (.vStr "phones")⟩
      = (.error (.validationError "category"), [])
    ∧ createProduct_alt [⟨"electronics", ["phones"]⟩] [] 1 0 7
        ⟨some (.vStr "iPhone"), some (.vNum 999), some (.vStr "d"),
         some (.vStr "u"), some (.vStr "electronics"), some (.vStr "laptops")⟩
      = (.ok ⟨400, "Invalid subcategory for this category"⟩, [])
    ∧ (createProduct_alt [⟨"electronics", ["phones"]⟩] [] 1 0 7
        ⟨some (.vStr "iPhone"), some (.vNum 999), some (.vStr "d"),
         some (.vStr "u"), some (.vStr "electronics"), some (.vStr "phones")⟩).1
      = .ok ⟨201, "Product created successfully"⟩ := by
  refine ⟨?_, ?_, ?_, ?_⟩ <;> rfl

end NodeSetup
